import Mathlib

/-!
Verification of the web-chat-sdk chat/call cores.

This file shallowly embeds the state manipulated by the SDK source
(src/chat.js, src/call.js, the socket service and the utility module) as
Lean structures, and the event handlers as pure state-transition
functions.  All definitions are translated from the JavaScript source;
effects on the outside world (network sends, the DOM, console logging)
are omitted, while every mutation of the session records, every message
appended or updated, every promise settlement and every timer
armed/cleared is modelled explicitly.
-/

namespace WebChatSdk

/-- Message roles, from constants.js: MESSAGE_ROLES. -/
inductive Role where
  | assistant
  | user
  | agent
  | system
deriving DecidableEq, Repr

/-- Chat transport modes, from chat.js: TransportType. -/
inductive Transport where
  | sse
  | socket
deriving DecidableEq, Repr

/-- A chat message object.  JavaScript object fields that may be absent
are Options; the text field is a plain string because the code always
reads it through the guard (lastMsg.text or the empty string). -/
structure Message where
  role : Option Role := none
  text : String := ""
  html : Option String := none
  timestamp : Option String := none
  loading : Option Bool := none
  done : Option Bool := none
  errorText : Option String := none
  sources : Option (List String) := none
deriving DecidableEq, Repr

/-- Settlement of the promise returned by sendMessage: resolve carries
the current session id, reject carries the error message. -/
inductive SendOutcome where
  | resolved (sessionId : Option String)
  | rejected (message : String)
deriving DecidableEq, Repr

/-- A JavaScript promise settles at most once: later settlements are
ignored. -/
def settleOnce (o : SendOutcome) : Option SendOutcome → Option SendOutcome
  | none => some o
  | some p => some p

/-- The view of the chat session state touched by the sendMessage
streaming loop in chat.js, together with the settlement state of the
promise the call returned. -/
structure ChatState where
  messages : List Message := []
  sessionId : Option String := none
  requestId : Option String := none
  lastStreamId : Option String := none
  transport : Transport := .sse
  outcome : Option SendOutcome := none
deriving DecidableEq, Repr

/-- A fresh session as produced by createSession in chat.js. -/
def freshChat : ChatState := {}

/-- Inbound server-sent events as dispatched by the onmessage handler in
chat.js: the branch taken is decided by response.event for connected and
upgrade events, then by presence of data.message, then by truthiness of
data.error; anything else is ignored. -/
inductive SseEvent where
  | connected (sessionId requestId : Option String)
  | upgradeToWebsocket (requestId : Option String)
  | content (message : String) (streamId : Option String) (done : Option Bool)
      (sessionIdSnake requestId : Option String) (sources : Option (List String))
  | errorEvent
  | other
deriving DecidableEq, Repr

/-- The generic error string used by chat.js for backend and transport
failures. -/
def failedToConnect : String := "Failed to connect to the system"

/-- The user message appended at the top of sendMessage. -/
def userMessage (text : String) (html timestamp : Option String) : Message :=
  { role := some .user, text := text, html := html, timestamp := timestamp }

/-- The placeholder assistant message appended before the streaming
request is opened. -/
def loadingMessage : Message :=
  { role := some .assistant, text := "", loading := some true }

/-- The fresh assistant message started when the stream id changes. -/
def newBotMessage : Message :=
  { role := some .assistant, text := "", loading := some true }

/-- The update applied to the tail message by a content event: clear
loading, append the fragment text, take over sources, and keep the old
done flag unless the event carries one (the ?? operator). -/
def contentUpdate (m : String) (d : Option Bool) (srcs : Option (List String))
    (lastMsg : Message) : Message :=
  { lastMsg with
    loading := some false,
    text := lastMsg.text ++ m,
    sources := srcs,
    done := match d with | some b => some b | none => lastMsg.done }

/-- The JavaScript map over the list replacing only the entry at index
length - 1; on an empty list it is the identity. -/
def updateLast (f : Message → Message) : List Message → List Message
  | [] => []
  | [m] => [f m]
  | m :: ms => m :: updateLast f ms

/-- One step of the onmessage handler of sendMessage in chat.js. -/
def onSseMessage (s : ChatState) : SseEvent → ChatState
  | .connected sid rid => { s with sessionId := sid, requestId := rid }
  | .upgradeToWebsocket _ => s
  | .content m sid d sid2 rid srcs =>
      let s1 : ChatState :=
        match sid with
        | none => s
        | some v =>
          match s.lastStreamId with
          | none => { s with lastStreamId := some v }
          | some prev =>
            if v = prev then s
            else { s with lastStreamId := some v,
                          messages := s.messages ++ [newBotMessage] }
      let s2 := { s1 with messages := updateLast (contentUpdate m d srcs) s1.messages }
      let s3 :=
        if d = some true then
          { s2 with outcome := settleOnce (.resolved s2.sessionId) s2.outcome }
        else s2
      { s3 with
        sessionId := match sid2 with | some v => some v | none => s3.sessionId,
        requestId := match rid with | some v => some v | none => s3.requestId }
  | .errorEvent =>
      let s1 := { s with
        messages := updateLast
          (fun lastMsg =>
            { lastMsg with loading := some false, errorText := some failedToConnect })
          s.messages }
      { s1 with outcome := settleOnce (.rejected failedToConnect) s1.outcome }
  | .other => s

/-- Fold the onmessage handler over an ordered inbound event sequence. -/
def runSse (s : ChatState) (events : List SseEvent) : ChatState :=
  events.foldl onSseMessage s

/-- The synchronous prefix of sendMessage in chat.js: append the user
message; if the transport is the socket and the socket is connected,
fire over the socket and resolve immediately with the current session
id; otherwise append the loading placeholder and reset lastStreamId
before opening the streaming request. -/
def sendMessageLocal (s : ChatState) (text : String) (html timestamp : Option String)
    (socketConnected : Bool) : ChatState :=
  let s1 := { s with messages := s.messages ++ [userMessage text html timestamp] }
  if s1.transport = Transport.socket ∧ socketConnected = true then
    { s1 with outcome := settleOnce (.resolved s1.sessionId) s1.outcome }
  else
    { s1 with messages := s1.messages ++ [loadingMessage], lastStreamId := none }

/-- The catch block of sendMessage in chat.js, reached on a transport
error or a non-ok response at stream open: mark the tail message done,
attach the error text unless the tail was already done (truthy done
suppresses it), and reject the promise.  An empty error message falls
back to the generic string (the JavaScript or-default). -/
def onSendCatch (s : ChatState) (errMsg : String) : ChatState :=
  let s1 := { s with
    messages := updateLast
      (fun lastMsg =>
        { lastMsg with
          loading := some false,
          errorText :=
            if lastMsg.done = some true then none
            else some (if errMsg = "" then failedToConnect else errMsg),
          done := some true })
      s.messages }
  { s1 with outcome := settleOnce (.rejected errMsg) s1.outcome }

/-- Scenario A event sequence: connected with session id s1, then the
fragments Hel and lo, the latter terminal. -/
def scenarioAEvents : List SseEvent :=
  [ .connected (some "s1") none,
    .content "Hel" none none none none none,
    .content "lo" none (some true) none none none ]

/-- Scenario A run: fresh session, sendMessage hi over the streaming
transport, then the three inbound events. -/
def scenarioARun (ts : Option String) : ChatState :=
  runSse (sendMessageLocal freshChat "hi" none ts false) scenarioAEvents

/-- Claim C1: on a fresh streaming session, sendMessage hi followed by
connected with session id s1, fragment Hel, and terminal fragment lo
leaves exactly a user message hi and an assistant message Hello with
done set, and the promise resolves with s1. -/
theorem scenarioA_messages_and_resolution (ts : Option String) :
    (scenarioARun ts).messages =
      [ { role := some .user, text := "hi", timestamp := ts },
        { role := some .assistant, text := "Hello",
          loading := some false, done := some true } ]
    ∧ (scenarioARun ts).outcome = some (.resolved (some "s1")) := by
  constructor <;> rfl

/-- Concrete instance of the scenario A theorem with the empty
timestamp. -/
theorem scenarioA_messages_and_resolution_witness :
    (scenarioARun none).messages =
      [ { role := some .user, text := "hi", timestamp := none },
        { role := some .assistant, text := "Hello",
          loading := some false, done := some true } ]
    ∧ (scenarioARun none).outcome = some (.resolved (some "s1")) :=
  scenarioA_messages_and_resolution none

/-- Replacing the entry at the last index of a list with a known final
element rewrites only that element. -/
theorem updateLast_append_singleton (f : Message → Message)
    (ms : List Message) (t : Message) :
    updateLast f (ms ++ [t]) = ms ++ [f t] := by
  induction ms with
  | nil => rfl
  | cons m ms ih =>
    cases ms with
    | nil => rfl
    | cons m2 ms2 => simpa [updateLast] using ih

/-- Scenario C run: fresh streaming session, sendMessage hi, then
fragments X, Y, Z carrying stream ids a, a, b. -/
def scenarioCRun : ChatState :=
  runSse (sendMessageLocal freshChat "hi" none none false)
    [ .content "X" (some "a") none none none none,
      .content "Y" (some "a") none none none none,
      .content "Z" (some "b") none none none none ]

/-- Claim C2: within one sendMessage streaming loop, a fragment whose
stream id equals the previously seen one updates only the tail message
by appending its text; a fragment whose stream id differs starts a new
assistant message carrying the fragment text and leaves every earlier
message unchanged; and the stream id sequence a, a, b with contents X,
Y, Z yields exactly the two assistant messages XY and Z. -/
theorem streamId_reassembly
    (s : ChatState) (p q m : String) (d : Option Bool)
    (sid2 rid : Option String) (srcs : Option (List String))
    (ms : List Message) (t : Message)
    (hp : s.lastStreamId = some p) (hm : s.messages = ms ++ [t]) :
    ((onSseMessage s (.content m (some p) d sid2 rid srcs)).messages
        = ms ++ [contentUpdate m d srcs t])
    ∧ (q ≠ p →
        (onSseMessage s (.content m (some q) d sid2 rid srcs)).messages
          = (ms ++ [t]) ++ [contentUpdate m d srcs newBotMessage])
    ∧ (scenarioCRun.messages =
        [ { role := some .user, text := "hi" },
          { role := some .assistant, text := "XY", loading := some false },
          { role := some .assistant, text := "Z", loading := some false } ])
    ∧ ((scenarioCRun.messages.filter
          (fun msg => msg.role = some Role.assistant)).map
        (fun msg => msg.text) = ["XY", "Z"]) := by
  have hl : updateLast (contentUpdate m d srcs) (ms ++ [t, newBotMessage])
      = ms ++ [t, contentUpdate m d srcs newBotMessage] := by
    have h := updateLast_append_singleton (contentUpdate m d srcs) (ms ++ [t]) newBotMessage
    simpa using h
  refine ⟨?_, ?_, by rfl, by rfl⟩
  · simp [onSseMessage, hp, hm, updateLast_append_singleton]
    split <;> rfl
  · intro hq
    simp [onSseMessage, hp, hm, if_neg hq, hl]
    split <;> rfl

/-- Concrete instance of the reassembly theorem: from a state whose last
seen stream id is a, the fragment Y with stream id a appends to the
tail, and the fragment Z with stream id b starts a new assistant
message. -/
theorem streamId_reassembly_witness :
    ((onSseMessage
        { messages := [userMessage "hi" none none,
            { role := some .assistant, text := "X", loading := some false }],
          lastStreamId := some "a" }
        (.content "Y" (some "a") none none none none)).messages
      = [userMessage "hi" none none] ++
        [contentUpdate "Y" none none
          { role := some .assistant, text := "X", loading := some false }])
    ∧ ((onSseMessage
        { messages := [userMessage "hi" none none,
            { role := some .assistant, text := "X", loading := some false }],
          lastStreamId := some "a" }
        (.content "Z" (some "b") none none none none)).messages
      = ([userMessage "hi" none none] ++
          [{ role := some .assistant, text := "X", loading := some false }]) ++
        [contentUpdate "Z" none none newBotMessage]) := by
  have h := streamId_reassembly
    { messages := [userMessage "hi" none none,
        { role := some .assistant, text := "X", loading := some false }],
      lastStreamId := some "a" }
    "a" "b" "Y" none none none none
    [userMessage "hi" none none]
    { role := some .assistant, text := "X", loading := some false }
    rfl rfl
  have h2 := streamId_reassembly
    { messages := [userMessage "hi" none none,
        { role := some .assistant, text := "X", loading := some false }],
      lastStreamId := some "a" }
    "a" "b" "Z" none none none none
    [userMessage "hi" none none]
    { role := some .assistant, text := "X", loading := some false }
    rfl rfl
  exact ⟨h.1, h2.2.1 (by decide)⟩

/-- Run of a failed exchange: fresh streaming session, sendMessage hi,
then an explicit backend error event. -/
def scenarioErrRun : ChatState :=
  onSseMessage (sendMessageLocal freshChat "hi" none none false) .errorEvent

/-- Counterexample to claim C4: after a backend error event the tail
message carries the non-empty error text but its done flag is left
unchanged (here absent), not set to true, although the exchange failed
(the promise was rejected). -/
theorem error_event_leaves_done_unset :
    (scenarioErrRun.messages.getLastD {}).errorText = some failedToConnect
    ∧ ¬ (scenarioErrRun.messages.getLastD {}).done = some true
    ∧ scenarioErrRun.outcome = some (.rejected failedToConnect) := by
  refine ⟨rfl, ?_, rfl⟩
  decide

/-- Claim C4 (amended): on a failed exchange no message is removed and
the tail message is updated in place; the catch path (transport error or
non-ok response at stream open) sets done to true and a non-empty error
text unless the tail was already done, while the explicit backend error
event sets the non-empty error text and clears loading but leaves the
done flag unchanged. -/
theorem failed_exchange_tail_update
    (s : ChatState) (errMsg : String) (ms : List Message) (t : Message)
    (hm : s.messages = ms ++ [t]) :
    ((onSseMessage s .errorEvent).messages
        = ms ++ [{ t with loading := some false, errorText := some failedToConnect }])
    ∧ ((onSseMessage s .errorEvent).messages.length = s.messages.length)
    ∧ ((onSendCatch s errMsg).messages
        = ms ++ [{ t with loading := some false, done := some true,
                          errorText :=
                            if t.done = some true then none
                            else some (if errMsg = "" then failedToConnect else errMsg) }])
    ∧ ((onSendCatch s errMsg).messages.length = s.messages.length)
    ∧ ((onSseMessage s .errorEvent).outcome
        = settleOnce (.rejected failedToConnect) s.outcome)
    ∧ ((onSendCatch s errMsg).outcome = settleOnce (.rejected errMsg) s.outcome) := by
  refine ⟨?_, ?_, ?_, ?_, rfl, rfl⟩
  · simp [onSseMessage, hm, updateLast_append_singleton]
  · simp [onSseMessage, hm, updateLast_append_singleton]
  · simp [onSendCatch, hm, updateLast_append_singleton]
  · simp [onSendCatch, hm, updateLast_append_singleton]

/-- Concrete instance of the failed-exchange theorem on the state of a
fresh exchange with one user message and the loading placeholder. -/
theorem failed_exchange_tail_update_witness :
    ((onSseMessage (sendMessageLocal freshChat "hi" none none false) .errorEvent).messages
        = [userMessage "hi" none none] ++
          [{ loadingMessage with loading := some false,
                                 errorText := some failedToConnect }])
    ∧ ((onSendCatch (sendMessageLocal freshChat "hi" none none false) "boom").messages
        = [userMessage "hi" none none] ++
          [{ loadingMessage with loading := some false, done := some true,
                                 errorText :=
                                   if loadingMessage.done = some true then none
                                   else some (if "boom" = "" then failedToConnect else "boom") }]) := by
  have h := failed_exchange_tail_update
    (sendMessageLocal freshChat "hi" none none false) "boom"
    [userMessage "hi" none none] loadingMessage rfl
  exact ⟨h.1, h.2.2.1⟩

/-- The full chat session record of createSession in chat.js.  The
callbacks object is opaque to the controller, so it is a type parameter;
credentials and config data are opaque payloads.  The abort controller
field holds the index of the current controller in the global controller
store. -/
structure ChatSessionFull (K : Type) where
  credentials : Option String := none
  authenticated : Bool := false
  configData : Option String := none
  sessionId : Option String := none
  requestId : Option String := none
  sseUrl : Option String := none
  abortController : Option Nat := none
  lastStreamId : Option String := none
  messages : List Message := []
  callbacks : K
  transport : Transport := .sse

/-- createSession in chat.js. -/
def createChatSession (K : Type) (k : K) : ChatSessionFull K :=
  { callbacks := k }

/-- The session-record part of cleanup in chat.js: a fresh session
keeping the callbacks, with the credentials copied back over. -/
def chatCleanupSession (K : Type) (s : ChatSessionFull K) : ChatSessionFull K :=
  { createChatSession K s.callbacks with credentials := s.credentials }

/-- The chat session together with the store of all AbortController
objects created so far; an entry is true once its abort signal has been
triggered. -/
structure ChatGlobal (K : Type) where
  session : ChatSessionFull K
  controllers : List Bool := []

/-- Triggering the abort signal of the current controller, as done at
the top of cleanup in chat.js; without a current controller the store is
untouched. -/
def abortCurrent (ctrl : Option Nat) (cs : List Bool) : List Bool :=
  match ctrl with
  | none => cs
  | some i => cs.set i true

/-- cleanup in chat.js: abort the current controller, then replace the
session with a fresh one keeping callbacks and credentials.  (It also
disconnects the chat socket, modelled separately.) -/
def chatCleanupG (K : Type) (g : ChatGlobal K) : ChatGlobal K :=
  { session := chatCleanupSession K g.session,
    controllers := abortCurrent g.session.abortController g.controllers }

/-- The streaming branch of sendMessage in chat.js up to the moment the
new streaming request is opened: append the user message and the loading
placeholder, reset lastStreamId, and allocate a fresh AbortController,
overwriting the session's reference.  No abort of any existing
controller appears anywhere on this path in the source. -/
def sendMessageOpenG (K : Type) (g : ChatGlobal K) (text : String)
    (html timestamp : Option String) : ChatGlobal K :=
  let s1 := { g.session with
    messages := g.session.messages ++ [userMessage text html timestamp]
                ++ [loadingMessage],
    lastStreamId := none,
    abortController := some g.controllers.length }
  { session := s1, controllers := g.controllers ++ [false] }

/-- A global state with a previous streaming request still in flight:
one controller exists, its signal untriggered, and the session points at
it. -/
def inflightGlobal : ChatGlobal Unit :=
  { session := { createChatSession Unit () with abortController := some 0 },
    controllers := [false] }

/-- Counterexample to claim C3: sendMessage, opening a new streaming
request while the previous one is still in flight, leaves the previous
controller's abort signal untriggered (the old entry is still false
after the new request has been opened), so the previous request is
ignored rather than cancelled. -/
theorem sendMessage_does_not_abort_previous :
    (sendMessageOpenG Unit inflightGlobal "hi" none none).controllers = [false, false]
    ∧ (sendMessageOpenG Unit inflightGlobal "hi" none none).controllers.getD 0 true = false
    ∧ (sendMessageOpenG Unit inflightGlobal "hi" none none).session.abortController = some 1 :=
  ⟨rfl, rfl, rfl⟩

/-- Claim C3 (amended): sendMessage never triggers the abort signal of a
previous in-flight streaming request; opening a new streaming request
leaves every existing controller's aborted flag unchanged and merely
appends a fresh untriggered controller, pointing the session at it.
Only cleanup (disconnect or a failed startChat) triggers the current
controller's signal. -/
theorem sendMessage_abort_behavior (K : Type) (g : ChatGlobal K)
    (text : String) (html timestamp : Option String) (i : Nat)
    (hi : i < g.controllers.length) :
    ((sendMessageOpenG K g text html timestamp).controllers
        = g.controllers ++ [false])
    ∧ ((sendMessageOpenG K g text html timestamp).controllers.getD i true
        = g.controllers.getD i true)
    ∧ ((sendMessageOpenG K g text html timestamp).session.abortController
        = some g.controllers.length)
    ∧ (g.session.abortController = some i →
        (chatCleanupG K g).controllers.getD i false = true) := by
  refine ⟨rfl, ?_, rfl, ?_⟩
  · simp [sendMessageOpenG, List.getD, List.getElem?_append_left hi,
      List.getElem?_eq_getElem hi]
  · intro hc
    simp [chatCleanupG, abortCurrent, hc, List.getD]
    rw [List.getElem?_set_self]
    · rfl
    · exact hi

/-- Concrete instance of the abort-behavior theorem on the in-flight
global state. -/
theorem sendMessage_abort_behavior_witness :
    ((sendMessageOpenG Unit inflightGlobal "hi" none none).controllers
        = inflightGlobal.controllers ++ [false])
    ∧ ((chatCleanupG Unit inflightGlobal).controllers.getD 0 false = true) := by
  have h := sendMessage_abort_behavior Unit inflightGlobal "hi" none none 0 (by decide)
  exact ⟨h.1, h.2.2.2 rfl⟩

/-- Call lifecycle status values used by call.js. -/
inductive CallStatus where
  | disconnected
  | connecting
  | connected
  | error
deriving DecidableEq, Repr

/-- The full call session record of createSession in call.js.  Handles
to browser objects (socket, peer connection, streams, the audio
element) are modelled by presence flags; the callbacks object is an
opaque type parameter. -/
structure CallSessionFull (K : Type) where
  sessionId : Option String := none
  socketPresent : Bool := false
  pcPresent : Bool := false
  localStreamPresent : Bool := false
  remoteStreamPresent : Bool := false
  remoteAudioPresent : Bool := false
  isMuted : Bool := false
  callStatus : CallStatus := .disconnected
  pingActive : Bool := false
  pingCount : Nat := 0
  lastPongTime : Option Nat := none
  callbacks : K

/-- createSession in call.js. -/
def createCallSession (K : Type) (k : K) : CallSessionFull K :=
  { callbacks := k }

/-- The session-record part of cleanup in call.js: after closing the
peer connection and socket, stopping the tracks and timers, the session
is replaced by a fresh one carrying over only the callbacks. -/
def callCleanupSession (K : Type) (s : CallSessionFull K) : CallSessionFull K :=
  createCallSession K s.callbacks

/-- Claim C10: chat cleanup resets every session field to its
createSession value (messages to the empty list, ids, url, abort
controller and last stream id cleared, transport back to sse,
authenticated back to false) while leaving the callbacks object and the
stored credentials untouched, and call cleanup resets every CallSession
field while preserving its registered callbacks. -/
theorem cleanup_resets_preserving_callbacks (K : Type)
    (s : ChatSessionFull K) (c : CallSessionFull K) :
    (chatCleanupSession K s =
      { credentials := s.credentials, authenticated := false, configData := none,
        sessionId := none, requestId := none, sseUrl := none,
        abortController := none, lastStreamId := none, messages := [],
        callbacks := s.callbacks, transport := .sse })
    ∧ (callCleanupSession K c =
      { sessionId := none, socketPresent := false, pcPresent := false,
        localStreamPresent := false, remoteStreamPresent := false,
        remoteAudioPresent := false, isMuted := false,
        callStatus := .disconnected, pingActive := false, pingCount := 0,
        lastPongTime := none, callbacks := c.callbacks }) :=
  ⟨rfl, rfl⟩

/-- Concrete instance of the cleanup theorem. -/
theorem cleanup_resets_preserving_callbacks_witness :
    (chatCleanupSession Unit
      { credentials := some "c", authenticated := true, configData := some "d",
        sessionId := some "s", requestId := some "r", sseUrl := some "u",
        abortController := some 3, lastStreamId := some "x",
        messages := [userMessage "hi" none none], callbacks := (),
        transport := .socket } =
      { credentials := some "c", authenticated := false, configData := none,
        sessionId := none, requestId := none, sseUrl := none,
        abortController := none, lastStreamId := none, messages := [],
        callbacks := (), transport := .sse })
    ∧ (callCleanupSession Unit
      { sessionId := some "s", socketPresent := true, pcPresent := true,
        localStreamPresent := true, remoteStreamPresent := true,
        remoteAudioPresent := true, isMuted := true,
        callStatus := .connected, pingActive := true, pingCount := 7,
        lastPongTime := some 5, callbacks := () } =
      { sessionId := none, socketPresent := false, pcPresent := false,
        localStreamPresent := false, remoteStreamPresent := false,
        remoteAudioPresent := false, isMuted := false,
        callStatus := .disconnected, pingActive := false, pingCount := 0,
        lastPongTime := none, callbacks := () }) :=
  cleanup_resets_preserving_callbacks Unit _ _

/-- The ping interval of the chat socket service, in milliseconds. -/
def pingIntervalMs : Nat := 10000

/-- The chat socket session of the socket service, combined with the
chat fields it touches (the transport mode it sets through setTransport
and the message list it appends to through addMessage).  Timers are
modelled by their fire deadline (the socketDisconnectedTimeout) or an
armed flag (the ping interval and the connection timeout). -/
structure SockState where
  socketPresent : Bool := false
  previouslyConnected : Bool := false
  socketDisconnected : Bool := false
  transport : Transport := .sse
  disconnectDeadline : Option Nat := none
  pingActive : Bool := false
  connTimeoutActive : Bool := false
  messages : List Message := []
deriving DecidableEq, Repr

/-- handleSocketConnected in the socket service. -/
def handleSocketConnected (s : SockState) : SockState :=
  { s with socketDisconnected := false, transport := .socket }

/-- handleSocketDisconnected in the socket service. -/
def handleSocketDisconnected (s : SockState) : SockState :=
  { s with socketDisconnected := true, transport := .sse }

/-- Timed events delivered to the chat socket session: the socket open
callback, a pong frame, and the firing of the socketDisconnectedTimeout
at the wall-clock instant it was armed for.  A fire whose instant does
not match the currently armed deadline corresponds to a timer that was
cleared or superseded and is a no-op. -/
inductive SockEvent where
  | opened (t : Nat)
  | pong (t : Nat)
  | deadlineFire (t : Nat)
deriving DecidableEq, Repr

/-- One step of the chat socket event handling: onopen marks the
connection as previously connected, switches the transport to the
socket and starts the ping interval; a pong frame re-promotes a
degraded channel and re-arms the disconnect deadline at now plus the
ping interval plus 1000 ms; the deadline firing degrades the channel
and falls back to sse. -/
def sockStep (s : SockState) : SockEvent → SockState
  | .opened _ =>
      { handleSocketConnected { s with previouslyConnected := true } with
        socketPresent := true, connTimeoutActive := false, pingActive := true }
  | .pong t =>
      let s1 := if s.socketDisconnected then handleSocketConnected s else s
      { s1 with disconnectDeadline := some (t + pingIntervalMs + 1000) }
  | .deadlineFire t =>
      if s.disconnectDeadline = some t then
        handleSocketDisconnected { s with disconnectDeadline := none }
      else s

/-- Run the socket session from the fresh state over an event list. -/
def runSock (events : List SockEvent) : SockState :=
  events.foldl sockStep {}

/-- A deadline fire is a no-op while no disconnect deadline is armed. -/
theorem sockStep_fire_no_deadline (s : SockState)
    (h : s.disconnectDeadline = none) (t : Nat) :
    sockStep s (.deadlineFire t) = s := by
  simp [sockStep, h]

/-- With no deadline armed, any sequence of deadline fires is a no-op. -/
theorem foldl_fires_no_deadline (s : SockState)
    (h : s.disconnectDeadline = none) (fires : List Nat) :
    (fires.map SockEvent.deadlineFire).foldl sockStep s = s := by
  induction fires with
  | nil => rfl
  | cons t ts ih =>
    simp only [List.map_cons, List.foldl_cons, sockStep_fire_no_deadline s h t]
    exact ih

/-- Counterexample to claim C5: after the chat socket connects and no
pong ever arrives, no disconnect deadline is ever armed, so even when
the interval-plus-grace instant (11000 ms) or any later instant is
reached the channel is never degraded and the transport stays socket
instead of reverting to sse. -/
theorem no_pong_never_degrades :
    (runSock [.opened 0]).transport = Transport.socket
    ∧ (runSock [.opened 0]).disconnectDeadline = none
    ∧ (runSock [.opened 0, .deadlineFire 11000]).transport = Transport.socket
    ∧ (runSock [.opened 0, .deadlineFire 11000, .deadlineFire 999999]).transport
        = Transport.socket
    ∧ (runSock [.opened 0, .deadlineFire 11000]).socketDisconnected = false := by
  refine ⟨rfl, rfl, rfl, rfl, rfl⟩

/-- Claim C5 (amended): the degradation deadline is armed only by the
receipt of a pong.  After the socket opens, if no pong ever arrives the
channel is never declared degraded and the transport stays socket no
matter how much time passes; a pong at time t arms the deadline at
t + 10000 + 1000 ms, and if that deadline fires (no further pong
re-armed it) the channel is marked degraded and the transport reverts
to sse before the next send. -/
theorem heartbeat_degradation (s : SockState) (t u v : Nat) (fires : List Nat)
    (hu : s.disconnectDeadline = some u) :
    ((runSock (SockEvent.opened v :: fires.map SockEvent.deadlineFire)).transport
        = Transport.socket)
    ∧ ((runSock (SockEvent.opened v :: fires.map SockEvent.deadlineFire)).disconnectDeadline
        = none)
    ∧ ((sockStep s (.pong t)).disconnectDeadline = some (t + pingIntervalMs + 1000))
    ∧ ((sockStep s (.deadlineFire u)).transport = Transport.sse)
    ∧ ((sockStep s (.deadlineFire u)).socketDisconnected = true) := by
  have hopen : runSock (SockEvent.opened v :: fires.map SockEvent.deadlineFire)
      = sockStep {} (.opened v) := by
    show (fires.map SockEvent.deadlineFire).foldl sockStep (sockStep {} (.opened v))
      = sockStep {} (.opened v)
    exact foldl_fires_no_deadline _ rfl fires
  refine ⟨by rw [hopen]; rfl, by rw [hopen]; rfl, ?_, ?_, ?_⟩
  · simp [sockStep]
  · simp [sockStep, hu, handleSocketDisconnected]
  · simp [sockStep, hu, handleSocketDisconnected]

/-- Concrete instance of the heartbeat theorem: after open at 0 and a
pong at 0 the deadline sits at 11000; a later pong re-arms it, and the
deadline firing at 11000 degrades the channel to sse. -/
theorem heartbeat_degradation_witness :
    ((sockStep (sockStep (runSock [.opened 0]) (.pong 0)) (.pong 20000)).disconnectDeadline
        = some 31000)
    ∧ ((sockStep (sockStep (runSock [.opened 0]) (.pong 0)) (.deadlineFire 11000)).transport
        = Transport.sse) := by
  have h := heartbeat_degradation (sockStep (runSock [.opened 0]) (.pong 0))
    20000 11000 0 [] rfl
  exact ⟨h.2.2.1, h.2.2.2.1⟩

/-- The error text appended by the socket service when no connection was
ever achieved. -/
def unableToEstablish : String := "Unable to establish connection"

/-- The terminal error message appended by the socket service: error
text, done true, a timestamp, and no other fields. -/
def errorConnMessage (ts : Option String) : Message :=
  { errorText := some unableToEstablish, done := some true, timestamp := ts }

/-- The onclose handler of connectSocket in the socket service: only for
the current socket; on abnormal closure (code 1006) either fall back
(previously connected) or append the terminal error message (never
connected), and clear the connection timeout; in every current-socket
case drop the socket handle and clear all timers. -/
def socketOnClose (code : Nat) (targetIsCurrent : Bool) (ts : Option String)
    (s : SockState) : SockState :=
  if targetIsCurrent then
    let s1 :=
      if code = 1006 then
        let s2 :=
          if s.previouslyConnected then handleSocketDisconnected s
          else { s with messages := s.messages ++ [errorConnMessage ts] }
        { s2 with connTimeoutActive := false }
      else s
    { s1 with socketPresent := false, pingActive := false,
              disconnectDeadline := none, connTimeoutActive := false }
  else s

/-- Claim C6: an abnormal closure (code 1006) of the chat socket after a
prior successful connection reverts the transport to sse and appends no
message; an abnormal closure before any successful connection appends a
terminal error message (error text set, done true) and leaves the
transport alone. -/
theorem abnormal_close_fallback (s : SockState) (ts : Option String) :
    ((socketOnClose 1006 true ts { s with previouslyConnected := true }).transport
        = Transport.sse)
    ∧ ((socketOnClose 1006 true ts { s with previouslyConnected := true }).messages
        = s.messages)
    ∧ ((socketOnClose 1006 true ts { s with previouslyConnected := false }).messages
        = s.messages ++ [errorConnMessage ts])
    ∧ ((socketOnClose 1006 true ts { s with previouslyConnected := false }).transport
        = s.transport)
    ∧ ((errorConnMessage ts).errorText = some unableToEstablish)
    ∧ ((errorConnMessage ts).done = some true) := by
  refine ⟨?_, ?_, ?_, ?_, rfl, rfl⟩ <;>
    simp [socketOnClose, handleSocketDisconnected]

/-- Concrete instance of the abnormal-closure theorem on the state right
after a successful open, and on the fresh state. -/
theorem abnormal_close_fallback_witness :
    ((socketOnClose 1006 true none
        { runSock [.opened 0] with previouslyConnected := true }).transport
      = Transport.sse)
    ∧ ((socketOnClose 1006 true none
        { ({} : SockState) with previouslyConnected := false }).messages
      = ({} : SockState).messages ++ [errorConnMessage none]) := by
  have h1 := abnormal_close_fallback (runSock [.opened 0]) none
  have h2 := abnormal_close_fallback ({} : SockState) none
  exact ⟨h1.1, h2.2.2.1⟩

/-- Outcomes of the promise returned by sendWithAck. -/
inductive AckOutcome where
  | resolvedData
  | rejectedTimeout
  | rejectedError
deriving DecidableEq, Repr

/-- A promise settles at most once. -/
def ackSettle (o : AckOutcome) : Option AckOutcome → Option AckOutcome
  | none => some o
  | some p => some p

/-- The pending state of one sendWithAck call: whether and how its
promise has settled, whether the onMessage listener is still attached to
the socket, and whether the 5000 ms auto-reject timer is still armed. -/
structure AckState where
  settled : Option AckOutcome := none
  listenerAttached : Bool := true
  timerArmed : Bool := true
deriving DecidableEq, Repr

/-- Events affecting one pending sendWithAck call: the auto-reject
timer firing, or an inbound frame carrying some event id and either a
data payload or an error payload. -/
inductive AckEvent where
  | timeoutFire
  | frame (eventId : String) (hasData : Bool)
deriving DecidableEq, Repr

/-- One step of sendWithAck event handling: the timer firing rejects
with the timeout error but does not detach the listener; a frame whose
event id matches, while the listener is attached, clears the timer,
detaches the listener, and resolves on a data payload or rejects on an
error payload; any other frame is ignored. -/
def ackStep (myId : String) (s : AckState) : AckEvent → AckState
  | .timeoutFire =>
      if s.timerArmed = true then
        { s with timerArmed := false,
                 settled := ackSettle .rejectedTimeout s.settled }
      else s
  | .frame id hasData =>
      if s.listenerAttached = true ∧ id = myId then
        { s with timerArmed := false, listenerAttached := false,
                 settled := ackSettle
                   (if hasData then .resolvedData else .rejectedError) s.settled }
      else s

/-- Run one pending sendWithAck call from its initial state (listener
attached, timer armed, promise pending) over an event list. -/
def runAck (myId : String) (events : List AckEvent) : AckState :=
  events.foldl (ackStep myId) {}

/-- Counterexample to claim C7: when the 5000 ms timeout fires with no
matching response, the promise is rejected with the timeout error but
the registered response listener is NOT removed: it is still attached
after the timeout, and a response frame carrying the event id that
arrives later is not a no-op (it mutates the state by detaching the
listener then). -/
theorem ack_timeout_keeps_listener :
    (runAck "e1" [.timeoutFire]).settled = some AckOutcome.rejectedTimeout
    ∧ (runAck "e1" [.timeoutFire]).listenerAttached = true
    ∧ runAck "e1" [.timeoutFire, .frame "e1" true] ≠ runAck "e1" [.timeoutFire] := by
  refine ⟨rfl, rfl, ?_⟩
  decide

/-- Claim C7 (amended): the promise rejects exactly once with the
timeout error when the timer fires — once settled, no later event
changes the outcome — but the response listener stays attached after
the timeout; a matching frame arriving after the timeout detaches the
listener at that point and leaves the outcome at the timeout
rejection. -/
theorem ack_timeout_behavior (myId : String) (s : AckState) (o : AckOutcome)
    (e : AckEvent) (b : Bool) (h : s.settled = some o) :
    ((ackStep myId s e).settled = some o)
    ∧ ((runAck myId [.timeoutFire]).settled = some AckOutcome.rejectedTimeout)
    ∧ ((runAck myId [.timeoutFire]).listenerAttached = true)
    ∧ ((runAck myId [.timeoutFire, .frame myId b]).settled
        = some AckOutcome.rejectedTimeout)
    ∧ ((runAck myId [.timeoutFire, .frame myId b]).listenerAttached = false) := by
  refine ⟨?_, rfl, rfl, ?_, ?_⟩
  · cases e with
    | timeoutFire => simp [ackStep, h, ackSettle]; split <;> simp [h, ackSettle]
    | frame id hasData => simp [ackStep, h, ackSettle]; split <;> simp [h, ackSettle]
  · simp [runAck, ackStep, ackSettle]
  · simp [runAck, ackStep, ackSettle]

/-- Concrete instance of the sendWithAck timeout theorem. -/
theorem ack_timeout_behavior_witness :
    ((ackStep "e1" (runAck "e1" [.timeoutFire]) (.frame "e2" true)).settled
        = some AckOutcome.rejectedTimeout)
    ∧ ((runAck "e1" [.timeoutFire, .frame "e1" true]).listenerAttached = false) := by
  have h := ack_timeout_behavior "e1" (runAck "e1" [.timeoutFire])
    AckOutcome.rejectedTimeout (.frame "e2" true) true rfl
  exact ⟨h.1, h.2.2.2.2⟩

/-- The generic call error string of call.js. -/
def unableToConnectVoice : String := "Unable to connect voice"

/-- Observable call-controller state: the current status, the history
of onCallStatus and onCallError callback invocations, the stop flags of
the acquired local media tracks, and presence flags for the stream
reference, peer connection, signaling socket and ping interval. -/
structure CallState where
  callStatus : CallStatus := .disconnected
  statusLog : List CallStatus := []
  errorLog : List (Option String) := []
  localTracks : List Bool := []
  hasLocalStream : Bool := false
  pcPresent : Bool := false
  socketPresent : Bool := false
  pingActive : Bool := false
deriving DecidableEq, Repr

/-- setCallStatus in call.js: store the status and notify the
callback. -/
def setCallStatus (st : CallStatus) (s : CallState) : CallState :=
  { s with callStatus := st, statusLog := s.statusLog ++ [st] }

/-- setCallError in call.js: notify the error callback. -/
def setCallError (e : Option String) (s : CallState) : CallState :=
  { s with errorLog := s.errorLog ++ [e] }

/-- The onerror handler of the call signaling socket in call.js: set
status error, surface the error message (or the generic string) through
the error callback, and reject the connectSocket promise — a no-op once
startCall has already awaited it.  Nothing else happens: no track is
stopped, nothing is closed. -/
def callSocketOnError (errMsg : Option String) (s : CallState) : CallState :=
  setCallError
    (some (match errMsg with
           | some m => if m = "" then unableToConnectVoice else m
           | none => unableToConnectVoice))
    (setCallStatus .error s)

/-- The onclose handler of the call signaling socket in call.js: it only
stops the ping interval. -/
def callSocketOnClose (s : CallState) : CallState :=
  { s with pingActive := false }

/-- cleanup in call.js, in this observable view: close the peer
connection, stop every local track and drop the stream reference, close
the socket, stop the ping interval, and reset the status field (without
a callback notification). -/
def callCleanup (s : CallState) : CallState :=
  { s with pcPresent := false,
           localTracks := s.localTracks.map (fun _ => true),
           hasLocalStream := false,
           socketPresent := false,
           pingActive := false,
           callStatus := .disconnected }

/-- The observable state right after startCall has sent the offer and
awaits the answer: status connecting (logged), error callback cleared
with null (logged), one running local audio track, peer connection and
signaling socket open, ping interval running. -/
def postOfferState : CallState :=
  { callStatus := .connecting, statusLog := [.connecting], errorLog := [none],
    localTracks := [false], hasLocalStream := true,
    pcPresent := true, socketPresent := true, pingActive := true }

/-- Counterexample to claim C8: when the signaling socket fails after
the offer was sent and before any answer, the onerror handler sets the
status to error and surfaces the error callback, but the status history
never reaches disconnected, the local track keeps running, and the peer
connection and socket stay open — no teardown happens before the error
is surfaced; a socket closure merely stops the ping interval, changing
nothing else. -/
theorem call_socket_failure_no_teardown :
    ((callSocketOnError none postOfferState).statusLog
        = [CallStatus.connecting, CallStatus.error])
    ∧ ((callSocketOnError none postOfferState).errorLog
        = [none, some unableToConnectVoice])
    ∧ ((callSocketOnError none postOfferState).localTracks = [false])
    ∧ ((callSocketOnError none postOfferState).pcPresent = true)
    ∧ ((callSocketOnError none postOfferState).socketPresent = true)
    ∧ (callSocketOnClose postOfferState
        = { postOfferState with pingActive := false }) :=
  ⟨rfl, rfl, rfl, rfl, rfl, rfl⟩

/-- Claim C8 (amended): after the offer is sent, a signaling-socket
error only appends the error status and invokes the error callback —
local tracks are not stopped, the peer connection and socket are not
closed, and no disconnected transition occurs — and a signaling-socket
closure only stops the ping interval; the full teardown (every local
track stopped, peer connection and socket closed) happens only in
cleanup, which runs on the startCall catch path, on an end event, or on
disconnectCall. -/
theorem call_socket_failure_behavior (s : CallState) (e : Option String) :
    ((callSocketOnError e s).localTracks = s.localTracks)
    ∧ ((callSocketOnError e s).pcPresent = s.pcPresent)
    ∧ ((callSocketOnError e s).socketPresent = s.socketPresent)
    ∧ ((callSocketOnError e s).callStatus = CallStatus.error)
    ∧ ((callSocketOnError e s).statusLog = s.statusLog ++ [CallStatus.error])
    ∧ (callSocketOnClose s = { s with pingActive := false })
    ∧ ((callCleanup s).localTracks.all (fun b => b) = true)
    ∧ ((callCleanup s).pcPresent = false)
    ∧ ((callCleanup s).socketPresent = false) := by
  refine ⟨rfl, rfl, rfl, rfl, rfl, rfl, ?_, rfl, rfl⟩
  simp [callCleanup, List.all_eq_true]

/-- Concrete instance of the call-socket failure theorem on the
post-offer state. -/
theorem call_socket_failure_behavior_witness :
    ((callSocketOnError (some "boom") postOfferState).localTracks
        = postOfferState.localTracks)
    ∧ ((callCleanup postOfferState).localTracks.all (fun b => b) = true) := by
  have h := call_socket_failure_behavior postOfferState (some "boom")
  exact ⟨h.1, h.2.2.2.2.2.2.1⟩

/-- A JavaScript bitwise shift-and-mask on a nonnegative number: the
operand is first converted to 32 bits (ToInt32 truncation), the shift
count is taken modulo 32, and the low byte is extracted with the 0xff
mask.  For every shift count k up to 24 the result equals the bits k to
k + 7 of the 32-bit truncation, also when the truncation is negative as
a signed value, because the arithmetic shift then only affects bits
above the extracted byte. -/
def jsShiftByte (t k : Nat) : Nat := t % 2 ^ 32 / 2 ^ (k % 32) % 256

/-- The sixteen bytes produced by uuidv7 in utils.js at timestamp t
with random bytes r (each taken modulo 256 as produced by the random
source): bytes 0 to 5 from the timestamp shifts 40, 32, 24, 16, 8 and
the direct mask, byte 6 with the version nibble 0x7 forced into the
high bits, byte 8 with the variant bits 10 forced into the top two
bits, all remaining bytes random. -/
def uuidv7Bytes (t : Nat) (r : Fin 16 → Nat) : List Nat :=
  [ jsShiftByte t 40, jsShiftByte t 32, jsShiftByte t 24, jsShiftByte t 16,
    jsShiftByte t 8, t % 2 ^ 32 % 256,
    r 6 % 16 + 0x70, r 7 % 256,
    r 8 % 64 + 0x80, r 9 % 256,
    r 10 % 256, r 11 % 256, r 12 % 256, r 13 % 256, r 14 % 256, r 15 % 256 ]

/-- The big-endian 48-bit encoding of a millisecond timestamp, the
layout the specification describes for the first six bytes. -/
def be48Bytes (t : Nat) : List Nat :=
  [ t / 2 ^ 40 % 256, t / 2 ^ 32 % 256, t / 2 ^ 24 % 256,
    t / 2 ^ 16 % 256, t / 2 ^ 8 % 256, t % 256 ]

/-- Claim C9 at its failing input: at timestamp 2 to the 32 (a value
satisfying the claim's hypothesis that the time is at least 2 to the
32) the code produces six zero bytes while the big-endian 48-bit
encoding has a one in its second byte — the JavaScript shifts operate
on the 32-bit truncation of the timestamp with the shift count reduced
modulo 32, so the generated value does not begin with the 48-bit
big-endian timestamp; the version and variant bits are nevertheless
set as described. -/
theorem uuidv7_timestamp_truncated :
    2 ^ 32 ≤ 2 ^ 32
    ∧ (uuidv7Bytes (2 ^ 32) (fun _ => 0)).take 6 = [0, 0, 0, 0, 0, 0]
    ∧ be48Bytes (2 ^ 32) = [0, 1, 0, 0, 0, 0]
    ∧ (uuidv7Bytes (2 ^ 32) (fun _ => 0)).take 6 ≠ be48Bytes (2 ^ 32)
    ∧ (uuidv7Bytes (2 ^ 32) (fun _ => 0)).getD 6 0 / 16 = 7
    ∧ (uuidv7Bytes (2 ^ 32) (fun _ => 0)).getD 8 0 / 64 = 2 := by
  refine ⟨le_refl _, ?_, ?_, ?_, ?_, ?_⟩ <;> decide

/-- What the code actually computes for every timestamp and random
source: the first six bytes come from the 32-bit truncation of the
timestamp with shift counts reduced modulo 32 (so byte 0 repeats bits
8 to 15 and byte 1 repeats the low byte), and the version nibble and
variant bits always hold. -/
theorem uuidv7_bytes_formula (t : Nat) (r : Fin 16 → Nat) :
    ((uuidv7Bytes t r).take 6
      = [ t % 2 ^ 32 / 2 ^ 8 % 256, t % 2 ^ 32 % 256, t % 2 ^ 32 / 2 ^ 24 % 256,
          t % 2 ^ 32 / 2 ^ 16 % 256, t % 2 ^ 32 / 2 ^ 8 % 256, t % 2 ^ 32 % 256 ])
    ∧ ((uuidv7Bytes t r).getD 6 0 / 16 = 7)
    ∧ ((uuidv7Bytes t r).getD 8 0 / 64 = 2) := by
  refine ⟨by norm_num [uuidv7Bytes, jsShiftByte], ?_, ?_⟩
  · show (r 6 % 16 + 0x70) / 16 = 7
    have h : r 6 % 16 < 16 := Nat.mod_lt _ (by norm_num)
    omega
  · show (r 8 % 64 + 0x80) / 64 = 2
    have h : r 8 % 64 < 64 := Nat.mod_lt _ (by norm_num)
    omega

/-- Concrete instance of the byte formula at the failing timestamp. -/
theorem uuidv7_bytes_formula_witness :
    ((uuidv7Bytes (2 ^ 32) (fun _ => 9)).take 6
      = [ 2 ^ 32 % 2 ^ 32 / 2 ^ 8 % 256, 2 ^ 32 % 2 ^ 32 % 256,
          2 ^ 32 % 2 ^ 32 / 2 ^ 24 % 256, 2 ^ 32 % 2 ^ 32 / 2 ^ 16 % 256,
          2 ^ 32 % 2 ^ 32 / 2 ^ 8 % 256, 2 ^ 32 % 2 ^ 32 % 256 ])
    ∧ ((uuidv7Bytes (2 ^ 32) (fun _ => 9)).getD 6 0 / 16 = 7) := by
  have h := uuidv7_bytes_formula (2 ^ 32) (fun _ => 9)
  exact ⟨h.1, h.2.1⟩

end WebChatSdk
